import Mathlib

/-!
Shallow embedding of `src/litfusion_api.py` (class `LitFusion`).

The embedding models the repository's own logic: environment resolution and
coercion in `setup`, pipeline-family selection, request dispatch in `predict`,
and the per-request iteration loops of the three mode handlers.  External
library behaviour (the diffusers pipelines) is abstracted as an explicit
function argument `pipe`; the HTTP harness is out of scope.  Python's `int()`
builtin is modelled for ASCII decimal strings with an optional sign and
surrounding whitespace, which covers every value the program's configuration
contract uses ("0"/"1" style flag strings and integer strings).
-/

namespace LitFusion

/-- An opaque produced image; only identity matters to this code. -/
structure Img where
  ident : Nat
deriving DecidableEq, Repr

/-- An error raised by an underlying pipeline call. -/
structure PipeErr where
  msg : String
deriving DecidableEq, Repr

/-- The three pipeline families `setup` can construct
(`AutoPipelineForText2Image`, `AutoPipelineForInpainting`,
`AutoPipelineForImage2Image`). -/
inductive PipelineKind where
  | text2image
  | inpainting
  | image2image
deriving DecidableEq, Repr

/-- The environment variables `setup` reads; `none` means unset. -/
structure Env where
  MODEL : Option String
  MAX_N : Option String
  ENABLE_CPU_OFFLOAD : Option String
  ENABLE_VAE_SLICING : Option String
  ENABLE_VAE_TILING : Option String
  ENABLE_IMAGES_GENERATION : Option String
  ENABLE_IMAGE_EDITS : Option String
  ENABLE_IMAGE_VARIATIONS : Option String
deriving DecidableEq, Repr

/-- The settings fields `setup` assigns on `self`. -/
structure Settings where
  model_name : String
  max_n : Int
  enable_cpu_offload : Bool
  enable_vae_slicing : Bool
  enable_vae_tiling : Bool
  enable_images_generation : Bool
  enable_image_edits : Bool
  enable_image_variations : Bool
deriving DecidableEq, Repr

/-- The request mapping after adapter translation; `none` models an absent key
(`request.get(k)` returning `None`). -/
structure Request where
  request_type : Option String
  prompt : Option String
  n : Option Int
  image : Option Img
  mask : Option Img
deriving DecidableEq, Repr

/-- Digits of a nonempty ASCII decimal numeral. -/
def parseDigits (l : List Char) : Option Nat :=
  if l = [] then none
  else if l.all Char.isDigit then
    some (l.foldl (fun a c => a * 10 + (c.toNat - 48)) 0)
  else none

/-- Numeral body after stripping: optional sign then digits. -/
def parseIntChars : List Char → Option Int
  | [] => none
  | c :: rest =>
    if c = '-' then (parseDigits rest).map (fun k => -(k : Int))
    else if c = '+' then (parseDigits rest).map (fun k => (k : Int))
    else (parseDigits (c :: rest)).map (fun k => (k : Int))

/-- Python `str.strip()` of surrounding whitespace. -/
def pyStrip (l : List Char) : List Char :=
  ((l.dropWhile Char.isWhitespace).reverse.dropWhile Char.isWhitespace).reverse

/-- Python `int(s)` on a string: `none` models a raised `ValueError`. -/
def parseInt (s : String) : Option Int :=
  parseIntChars (pyStrip s.data)

/-- `int(os.getenv(NAME, d))`: the integer default when the variable is unset,
else Python `int()` of the set string; `.error` models the raised
`ValueError`. -/
def parseIntOr (o : Option String) (d : Int) : Except Unit Int :=
  match o with
  | none => .ok d
  | some s =>
    match parseInt s with
    | some i => .ok i
    | none => .error ()

/-- Python `bool(i)` on an integer: nonzero check. -/
def boolOfInt (i : Int) : Bool :=
  decide (i ≠ 0)

/-- The environment-reading prefix of `LitFusion.setup` (lines 26-35), in
source order; the first coercion failure aborts with `.error` as the Python
`ValueError` would. -/
def resolveSettings (env : Env) : Except Unit Settings :=
  match parseIntOr env.MAX_N 10 with
  | .error e => .error e
  | .ok maxn =>
    match parseIntOr env.ENABLE_CPU_OFFLOAD 0 with
    | .error e => .error e
    | .ok cpu =>
      match parseIntOr env.ENABLE_VAE_SLICING 0 with
      | .error e => .error e
      | .ok slicing =>
        match parseIntOr env.ENABLE_VAE_TILING 0 with
        | .error e => .error e
        | .ok tiling =>
          match parseIntOr env.ENABLE_IMAGES_GENERATION 1 with
          | .error e => .error e
          | .ok gener =>
            match parseIntOr env.ENABLE_IMAGE_EDITS 1 with
            | .error e => .error e
            | .ok edits =>
              match parseIntOr env.ENABLE_IMAGE_VARIATIONS 1 with
              | .error e => .error e
              | .ok variations =>
                .ok ⟨env.MODEL.getD "default-model", maxn, boolOfInt cpu,
                  boolOfInt slicing, boolOfInt tiling, boolOfInt gener,
                  boolOfInt edits, boolOfInt variations⟩

/-- The pipeline-construction cascade of `setup` (lines 47-54): the first
enabled mode in the order generation, edit, variation; `none` when no mode is
enabled (the `raise ValueError` branch). -/
def selectPipeline (st : Settings) : Option PipelineKind :=
  if st.enable_images_generation then some .text2image
  else if st.enable_image_edits then some .inpainting
  else if st.enable_image_variations then some .image2image
  else none

/-- The observable outcome of running `setup`: a ready state with its single
constructed pipeline, the `ValueError` for no enabled mode (settings already
assigned), or a coercion `ValueError` while reading the environment. -/
inductive SetupOutcome where
  | ready (st : Settings) (p : PipelineKind)
  | noModeError (st : Settings)
  | coercionError
deriving DecidableEq, Repr

/-- `LitFusion.setup` end to end over an environment. -/
def setup (env : Env) : SetupOutcome :=
  match resolveSettings env with
  | .error _ => .coercionError
  | .ok st =>
    match selectPipeline st with
    | some p => .ready st p
    | none => .noModeError st

/-- The `self.pipeline` handle after `setup`: set only when `setup` reached a
ready state, otherwise still the `None` from `__init__`. -/
def pipelineOf : SetupOutcome → Option PipelineKind
  | .ready _ p => some p
  | _ => none

/-- The sentinel string yielded by `predict` for an unknown or disabled
request type. -/
def sentinelMsg : String :=
  "Unknown or disabled request type"

/-- A generator object returned by calling one of the three mode-handler
generator functions on a request; creating it runs none of the handler body
(Python generator semantics), it only records which handler and which
request. -/
inductive InnerGen where
  | generationGen (req : Request)
  | editGen (req : Request)
  | variationGen (req : Request)
deriving DecidableEq, Repr

/-- A value yielded by the `predict` generator.  `img` is included so that the
statement that `predict` never yields an image directly is contentful. -/
inductive PredictItem where
  | str (s : String)
  | gen (g : InnerGen)
  | img (i : Img)
deriving DecidableEq, Repr

/-- Whether a yielded item is a bare image. -/
def itemIsImage : PredictItem → Bool
  | .img _ => true
  | _ => false

/-- `LitFusion.predict` (lines 77-87): the full list of values the generator
yields for one request, against the settings `setup` left on `self`. -/
def predict (st : Settings) (req : Request) : List PredictItem :=
  if req.request_type = some "generation" ∧ st.enable_images_generation then
    [.gen (.generationGen req)]
  else if req.request_type = some "edit" ∧ st.enable_image_edits then
    [.gen (.editGen req)]
  else if req.request_type = some "variation" ∧ st.enable_image_variations then
    [.gen (.variationGen req)]
  else
    [.str sentinelMsg]

/-- The shared loop bound of all three handlers:
`range(min(request.get('n', 1), self.max_n))` — `.toNat` because a negative
Python `range` argument yields zero iterations. -/
def iterCount (req : Request) (max_n : Int) : Nat :=
  (min (req.n.getD 1) max_n).toNat

/-- Arguments of one `gen_pipe(prompt=...)` call in `generate_images`. -/
def generationCalls (req : Request) (max_n : Int) : List String :=
  List.replicate (iterCount req max_n) (req.prompt.getD "A beautiful landscape")

/-- Arguments of one `edit_pipe(...)` call in `edit_images`. -/
structure EditCall where
  prompt : String
  image : Option Img
  mask : Option Img
deriving DecidableEq, Repr

/-- The per-iteration pipeline calls `edit_images` makes for a request. -/
def editCalls (req : Request) (max_n : Int) : List EditCall :=
  List.replicate (iterCount req max_n)
    ⟨req.prompt.getD "Edit the image to look more vibrant", req.image, req.mask⟩

/-- Arguments of one `var_pipe(...)` call in `generate_variations`. -/
structure VarCall where
  prompt : String
  image : Option Img
deriving DecidableEq, Repr

/-- The per-iteration pipeline calls `generate_variations` makes for a
request. -/
def variationCalls (req : Request) (max_n : Int) : List VarCall :=
  List.replicate (iterCount req max_n)
    ⟨req.prompt.getD "Generate variations", req.image⟩

/-- Run a handler's pipeline calls in order against an abstract pipeline
`pipe`, yielding each returned image in order: the result is the list of
images the generator yields before finishing, paired with `some e` when a
pipeline call raises `e` (which ends the generator after the images of the
earlier iterations were already yielded). -/
def runPipeCalls {κ : Type} (pipe : κ → Except PipeErr (List Img)) :
    List κ → List Img × Option PipeErr
  | [] => ([], none)
  | c :: cs =>
    match pipe c with
    | .error e => ([], some e)
    | .ok imgs =>
      let rest := runPipeCalls pipe cs
      (imgs ++ rest.1, rest.2)

/-- `LitFusion.generate_images` (lines 89-95), with the derived
`AutoPipelineForText2Image.from_pipe` view abstracted as `pipe`. -/
def generate_images (pipe : String → Except PipeErr (List Img))
    (req : Request) (max_n : Int) : List Img × Option PipeErr :=
  runPipeCalls pipe (generationCalls req max_n)

/-- `LitFusion.edit_images` (lines 97-105), with the derived
`AutoPipelineForInpainting.from_pipe` view abstracted as `pipe`. -/
def edit_images (pipe : EditCall → Except PipeErr (List Img))
    (req : Request) (max_n : Int) : List Img × Option PipeErr :=
  runPipeCalls pipe (editCalls req max_n)

/-- `LitFusion.generate_variations` (lines 107-114), with the derived
`AutoPipelineForImage2Image.from_pipe` view abstracted as `pipe`. -/
def generate_variations (pipe : VarCall → Except PipeErr (List Img))
    (req : Request) (max_n : Int) : List Img × Option PipeErr :=
  runPipeCalls pipe (variationCalls req max_n)

/-- Whether an `Except` result is a success. -/
def isOkB {ε α : Type} : Except ε α → Bool
  | .ok _ => true
  | .error _ => false

/-- The set string values `setup` passes through `int()` (all read variables
except `MODEL`, which is used verbatim). -/
def coercedEnvStrings (env : Env) : List String :=
  [env.MAX_N, env.ENABLE_CPU_OFFLOAD, env.ENABLE_VAE_SLICING,
    env.ENABLE_VAE_TILING, env.ENABLE_IMAGES_GENERATION,
    env.ENABLE_IMAGE_EDITS, env.ENABLE_IMAGE_VARIATIONS].filterMap id

/-- The spec's clamp of a requested count to the interval `[1, max_n]`.
Stated from the spec's words, for comparison with the source's `iterCount`. -/
def clampSpec (x max_n : Int) : Int :=
  max 1 (min x max_n)

/-- An environment with every read variable unset. -/
def envEmpty : Env :=
  ⟨none, none, none, none, none, none, none, none⟩

/-- An environment with only `MAX_N` set, to `"5"`. -/
def envMax5 : Env :=
  ⟨none, some "5", none, none, none, none, none, none⟩

/-- An environment with the non-numeric value `ENABLE_VAE_SLICING="true"`. -/
def envBadSlicing : Env :=
  ⟨none, none, none, some "true", none, none, none, none⟩

/-- An environment with the non-numeric value `MAX_N="abc"`. -/
def envBadMax : Env :=
  ⟨none, some "abc", none, none, none, none, none, none⟩

/-- An environment disabling all three modes. -/
def envNoModes : Env :=
  ⟨none, none, none, none, none, some "0", some "0", some "0"⟩

/-- An environment with `ENABLE_VAE_SLICING="2"`, a value outside {0,1}. -/
def envSlicing2 : Env :=
  ⟨none, none, none, some "2", none, none, none, none⟩

/-- The settings produced by an empty environment: all defaults. -/
def stDefaults : Settings :=
  ⟨"default-model", 10, false, false, false, true, true, true⟩

/-- Default settings except that image edits are disabled. -/
def stEditsOff : Settings :=
  ⟨"default-model", 10, false, false, false, true, false, true⟩

/-- The settings produced by `envNoModes`: all three modes disabled. -/
def stNoModes : Settings :=
  ⟨"default-model", 10, false, false, false, false, false, false⟩

/-- An edit request carrying nothing but its type. -/
def reqEdit : Request :=
  ⟨some "edit", none, none, none, none⟩

/-- A generation request with `n = 3`. -/
def reqGen3 : Request :=
  ⟨some "generation", none, some 3, none, none⟩

/-- A generation request with `n = 0`. -/
def reqGen0 : Request :=
  ⟨some "generation", none, some 0, none, none⟩

/-- A variation request with no `image` field. -/
def reqVarNoImage : Request :=
  ⟨some "variation", none, none, none, none⟩

/-- A pipeline that fails exactly when called without an image, as the
underlying image-to-image pipeline does. -/
def pipeNeedsImage : VarCall → Except PipeErr (List Img) := fun c =>
  match c.image with
  | none => .error ⟨"missing required image"⟩
  | some i => .ok [i]

/-- A pipeline producing one fixed image per call. -/
def pipeConstA : String → Except PipeErr (List Img) := fun _ =>
  .ok [⟨1⟩]

/-- A second pipeline producing a different fixed image per call. -/
def pipeConstB : String → Except PipeErr (List Img) := fun _ =>
  .ok [⟨2⟩]

end LitFusion

namespace LitFusion

/- Helper lemmas shared by several claims. -/

theorem parseIntOr_isOk (o : Option String) (d : Int) :
    isOkB (parseIntOr o d) = o.all (fun s => (parseInt s).isSome) := by
  cases o with
  | none => rfl
  | some s => cases h : parseInt s <;> simp [parseIntOr, h, isOkB, Option.all]

theorem filterMap_id_all (l : List (Option String)) (f : String → Bool) :
    (l.filterMap id).all f = l.all (fun o => o.all f) := by
  induction l with
  | nil => rfl
  | cons o t ih => cases o <;> simp [List.filterMap_cons, ih, Option.all]

theorem resolveSettings_isOk (env : Env) :
    isOkB (resolveSettings env) =
      (coercedEnvStrings env).all (fun s => (parseInt s).isSome) := by
  unfold coercedEnvStrings
  rw [filterMap_id_all]
  simp only [List.all_cons, List.all_nil, Bool.and_true]
  rw [← parseIntOr_isOk env.MAX_N 10, ← parseIntOr_isOk env.ENABLE_CPU_OFFLOAD 0,
    ← parseIntOr_isOk env.ENABLE_VAE_SLICING 0, ← parseIntOr_isOk env.ENABLE_VAE_TILING 0,
    ← parseIntOr_isOk env.ENABLE_IMAGES_GENERATION 1,
    ← parseIntOr_isOk env.ENABLE_IMAGE_EDITS 1,
    ← parseIntOr_isOk env.ENABLE_IMAGE_VARIATIONS 1]
  unfold resolveSettings
  cases parseIntOr env.MAX_N 10 <;> cases parseIntOr env.ENABLE_CPU_OFFLOAD 0 <;>
    cases parseIntOr env.ENABLE_VAE_SLICING 0 <;>
    cases parseIntOr env.ENABLE_VAE_TILING 0 <;>
    cases parseIntOr env.ENABLE_IMAGES_GENERATION 1 <;>
    cases parseIntOr env.ENABLE_IMAGE_EDITS 1 <;>
    cases parseIntOr env.ENABLE_IMAGE_VARIATIONS 1 <;>
    simp [isOkB]

theorem runPipeCalls_singleton {κ : Type} (pipe : κ → Except PipeErr (List Img))
    (cs : List κ) (h : ∀ c ∈ cs, ∃ i, pipe c = .ok [i]) :
    (runPipeCalls pipe cs).2 = none ∧ (runPipeCalls pipe cs).1.length = cs.length := by
  induction cs with
  | nil => exact ⟨rfl, rfl⟩
  | cons c t ih =>
    obtain ⟨i, hi⟩ := h c (List.mem_cons_self c t)
    obtain ⟨e1, e2⟩ := ih (fun x hx => h x (List.mem_cons_of_mem c hx))
    simp [runPipeCalls, hi, e1, e2]

/-- C1: for every settings state with at least one mode-enable flag set,
`setup` constructs exactly one pipeline, chosen generation-first, then edit,
then variation: text-to-image when generation is enabled, otherwise
inpainting when edits are enabled, otherwise image-to-image. -/
theorem setup_constructs_priority_pipeline (env : Env) (st : Settings)
    (hres : resolveSettings env = .ok st)
    (h : st.enable_images_generation = true ∨ st.enable_image_edits = true ∨
      st.enable_image_variations = true) :
    setup env = .ready st
      (if st.enable_images_generation then .text2image
       else if st.enable_image_edits then .inpainting
       else .image2image) := by
  rcases h with hg | he | hv
  · simp [setup, hres, selectPipeline, hg]
  · by_cases hg : st.enable_images_generation <;>
      simp [setup, hres, selectPipeline, hg, he]
  · by_cases hg : st.enable_images_generation <;>
      by_cases he : st.enable_image_edits <;>
      simp [setup, hres, selectPipeline, hg, he, hv]

/-- Witness for C1: the all-defaults environment enables all three modes and
`setup` constructs the text-to-image pipeline. -/
theorem setup_constructs_priority_pipeline_w :
    setup envEmpty = .ready stDefaults .text2image :=
  setup_constructs_priority_pipeline envEmpty stDefaults rfl (Or.inl rfl)

/-- C2: for every settings state with all three mode-enable flags unset,
`setup` raises the no-pipeline-enabled `ValueError` and the pipeline handle
remains unset. -/
theorem setup_no_mode_raises (env : Env) (st : Settings)
    (hres : resolveSettings env = .ok st)
    (hg : st.enable_images_generation = false)
    (he : st.enable_image_edits = false)
    (hv : st.enable_image_variations = false) :
    setup env = .noModeError st ∧ pipelineOf (setup env) = none := by
  have hsel : selectPipeline st = none := by simp [selectPipeline, hg, he, hv]
  have hs : setup env = .noModeError st := by simp [setup, hres, hsel]
  exact ⟨hs, by rw [hs]; rfl⟩

/-- Witness for C2: with all three enable variables set to "0", `setup`
raises and no pipeline is constructed. -/
theorem setup_no_mode_raises_w :
    setup envNoModes = .noModeError stNoModes ∧ pipelineOf (setup envNoModes) = none :=
  setup_no_mode_raises envNoModes stNoModes rfl rfl rfl rfl

/-- C6: with every configuration variable unset, `setup` resolves the
documented defaults (model "default-model", max_n 10, CPU offload off, VAE
slicing off, VAE tiling off, generation on, edits on, variations on); with
`MAX_N="5"`, max_n resolves to 5. -/
theorem default_configuration :
    resolveSettings envEmpty = .ok stDefaults ∧
    resolveSettings envMax5 = .ok ⟨"default-model", 5, false, false, false, true, true, true⟩ :=
  ⟨rfl, rfl⟩

/-- Counterexample for C3: a generation request with `n = 0` and `max_n = 2`
performs zero pipeline invocations, while clamping the requested count to the
interval `[1, max_n]` would demand one. -/
theorem handler_iterations_clamp_cex :
    (generationCalls reqGen0 2).length = 0 ∧
    (clampSpec ((reqGen0.n).getD 1) 2).toNat = 1 ∧
    (generationCalls reqGen0 2).length ≠ (clampSpec ((reqGen0.n).getD 1) 2).toNat := by
  decide

/-- C3 (amended): every mode handler performs `min(n, max_n)` pipeline
invocations with `n` defaulting to 1 when absent; when the effective `n` and
`max_n` are at least 1 this equals `n` clamped to `[1, max_n]` — in general a
non-positive bound yields zero iterations, with no lower clamp to 1. -/
theorem handler_iterations (req : Request) (max_n : Int)
    (hn : 1 ≤ req.n.getD 1) (hm : 1 ≤ max_n) :
    (generationCalls req max_n).length = (clampSpec (req.n.getD 1) max_n).toNat ∧
    (editCalls req max_n).length = (clampSpec (req.n.getD 1) max_n).toNat ∧
    (variationCalls req max_n).length = (clampSpec (req.n.getD 1) max_n).toNat ∧
    iterCount req max_n = (min (req.n.getD 1) max_n).toNat := by
  have key : iterCount req max_n = (clampSpec (req.n.getD 1) max_n).toNat := by
    unfold iterCount clampSpec
    omega
  refine ⟨?_, ?_, ?_, rfl⟩ <;>
    simp [generationCalls, editCalls, variationCalls, key]

/-- Witness for C3 (amended): a generation request with `n = 3` and
`max_n = 2` performs exactly 2 pipeline invocations. -/
theorem handler_iterations_w :
    (generationCalls reqGen3 2).length = (clampSpec ((reqGen3.n).getD 1) 2).toNat ∧
    (generationCalls reqGen3 2).length = 2 :=
  ⟨(handler_iterations reqGen3 2 (by decide) (by decide)).1, by decide⟩

/-- C4: for every request whose type is not one of the three mode names or
whose matching enable flag is unset, `predict` yields exactly the single
sentinel string and hands nothing to any mode handler, hence no pipeline is
invoked and nothing is raised. -/
theorem predict_sentinel_on_disabled (st : Settings) (req : Request)
    (hg : ¬(req.request_type = some "generation" ∧ st.enable_images_generation = true))
    (he : ¬(req.request_type = some "edit" ∧ st.enable_image_edits = true))
    (hv : ¬(req.request_type = some "variation" ∧ st.enable_image_variations = true)) :
    predict st req = [.str sentinelMsg] := by
  simp only [predict]
  rw [if_neg hg, if_neg he, if_neg hv]

/-- Witness for C4: an edit request against settings with edits disabled
yields the sentinel. -/
theorem predict_sentinel_on_disabled_w :
    predict stEditsOff reqEdit = [.str sentinelMsg] :=
  predict_sentinel_on_disabled stEditsOff reqEdit (by decide) (by decide) (by decide)

/-- Counterexample for C5: with the default settings both generation and edit
are enabled and only the text-to-image pipeline is constructed, yet an edit
request does not fall through to the sentinel — it is routed to the edit
handler. -/
theorem dispatch_sentinel_cex :
    selectPipeline stDefaults = some .text2image ∧
    stDefaults.enable_image_edits = true ∧
    predict stDefaults reqEdit ≠ [.str sentinelMsg] := by
  decide

/-- C5 (amended): dispatch consults only the enable flags, never the
constructed pipeline: whenever generation and edit are both enabled (so the
prioritized text-to-image pipeline was constructed), an edit request is
routed to the edit handler rather than falling through to the sentinel. -/
theorem dispatch_follows_flags (st : Settings) (req : Request)
    (hgen : st.enable_images_generation = true)
    (hedit : st.enable_image_edits = true)
    (ht : req.request_type = some "edit") :
    selectPipeline st = some .text2image ∧
    predict st req = [.gen (.editGen req)] := by
  constructor
  · simp [selectPipeline, hgen]
  · have h1 : ¬(req.request_type = some "generation" ∧
        st.enable_images_generation = true) := by
      rw [ht]
      intro hcontra
      exact absurd hcontra.1 (by decide)
    simp only [predict]
    rw [if_neg h1, if_pos ⟨ht, hedit⟩]

/-- Witness for C5 (amended): the default settings with an edit request. -/
theorem dispatch_follows_flags_w :
    selectPipeline stDefaults = some .text2image ∧
    predict stDefaults reqEdit = [.gen (.editGen reqEdit)] :=
  dispatch_follows_flags stDefaults reqEdit rfl rfl rfl

/-- C7: `setup` subjects every set value (other than `MODEL`) to string→int
coercion followed by the int→bool nonzero check, and performs no other
validation: environment resolution succeeds exactly when every such value
parses as an integer; `ENABLE_VAE_SLICING="true"` and `MAX_N="abc"` each
abort `setup` during coercion; the out-of-range `"2"` passes and enables the
flag; `bool(int)` is the nonzero check. -/
theorem coercion_is_only_validation :
    (∀ env : Env, isOkB (resolveSettings env) =
      (coercedEnvStrings env).all (fun s => (parseInt s).isSome)) ∧
    setup envBadSlicing = .coercionError ∧
    setup envBadMax = .coercionError ∧
    resolveSettings envSlicing2 =
      .ok ⟨"default-model", 10, false, true, false, true, true, true⟩ ∧
    boolOfInt 0 = false ∧ boolOfInt 2 = true ∧ boolOfInt (-1) = true :=
  ⟨resolveSettings_isOk, rfl, rfl, rfl, rfl, rfl, rfl⟩

/-- C8: the variation handler passes a missing `image` field through to every
underlying pipeline call unchanged (no local check, no default image), so a
pipeline that rejects a missing image makes the request raise with no image
produced. -/
theorem variation_missing_image_raises (pipe : VarCall → Except PipeErr (List Img))
    (req : Request) (max_n : Int) (e : PipeErr)
    (himg : req.image = none)
    (hfail : ∀ p : String, pipe ⟨p, none⟩ = .error e)
    (hiter : 1 ≤ iterCount req max_n) :
    (∀ c ∈ variationCalls req max_n, c.image = none) ∧
    generate_variations pipe req max_n = ([], some e) := by
  constructor
  · intro c hc
    rw [List.eq_of_mem_replicate hc]
    exact himg
  · have h1 : iterCount req max_n = (iterCount req max_n - 1) + 1 := by omega
    unfold generate_variations variationCalls
    rw [himg, h1, List.replicate_succ]
    simp [runPipeCalls, hfail]

/-- Witness for C8: an image-requiring pipeline, a variation request with no
image, `max_n = 10`. -/
theorem variation_missing_image_raises_w :
    generate_variations pipeNeedsImage reqVarNoImage 10 =
      ([], some ⟨"missing required image"⟩) :=
  (variation_missing_image_raises pipeNeedsImage reqVarNoImage 10
    ⟨"missing required image"⟩ rfl (fun _ => rfl) (by decide)).2

/-- C9: running the generation handler twice with identical request content
against two pipelines that each yield one image per call (contents may
differ) produces two raise-free image sequences of equal length, both equal
to the iteration count determined by the request and `max_n` alone. -/
theorem generation_repeat_equal_length (p1 p2 : String → Except PipeErr (List Img))
    (req : Request) (max_n : Int)
    (h1 : ∀ s, ∃ i, p1 s = .ok [i]) (h2 : ∀ s, ∃ i, p2 s = .ok [i]) :
    (generate_images p1 req max_n).2 = none ∧
    (generate_images p2 req max_n).2 = none ∧
    (generate_images p1 req max_n).1.length = iterCount req max_n ∧
    (generate_images p2 req max_n).1.length = iterCount req max_n ∧
    (generate_images p1 req max_n).1.length = (generate_images p2 req max_n).1.length := by
  obtain ⟨e1, l1⟩ := runPipeCalls_singleton p1 (generationCalls req max_n)
    (fun c _ => h1 c)
  obtain ⟨e2, l2⟩ := runPipeCalls_singleton p2 (generationCalls req max_n)
    (fun c _ => h2 c)
  have hlen : (generationCalls req max_n).length = iterCount req max_n := by
    simp [generationCalls]
  exact ⟨e1, e2, by rw [generate_images, l1, hlen],
    by rw [generate_images, l2, hlen],
    by rw [generate_images, generate_images, l1, l2]⟩

/-- Witness for C9: two constant single-image pipelines with different
contents, on a generation request with `n = 3` and `max_n = 2`. -/
theorem generation_repeat_equal_length_w :
    (generate_images pipeConstA reqGen3 2).1.length =
      (generate_images pipeConstB reqGen3 2).1.length :=
  (generation_repeat_equal_length pipeConstA pipeConstB reqGen3 2
    (fun _ => ⟨⟨1⟩, rfl⟩) (fun _ => ⟨⟨2⟩, rfl⟩)).2.2.2.2

/-- C10: for every request, `predict` yields exactly one item and terminates:
either the sentinel string or a single lazy mode-handler generator object —
never an image directly. -/
theorem predict_yields_single_item (st : Settings) (req : Request) :
    (predict st req).length = 1 ∧
    (predict st req = [.str sentinelMsg] ∨ ∃ g, predict st req = [.gen g]) ∧
    (predict st req).all (fun it => !itemIsImage it) = true := by
  unfold predict
  split_ifs <;>
    exact ⟨rfl, by first | exact Or.inl rfl | exact Or.inr ⟨_, rfl⟩, rfl⟩

end LitFusion
